import Mathlib

/-
Verification of the Support_System_Monitoring command-relay protocol.

Shallow embedding of:
  * backend/main.py           - relay server: agent registry + per-agent FIFO command queues
  * sys_agent/agent.py        - desktop agent: identity store + command executor
  * src/sys-ai/modules/agent_worker.py      - worker agent: identity store + command executor
  * src/sys-ai/modules/auto_troubleshoot.py - service restart helper

Python dicts that the backend persists as JSON files are modelled as
association lists keyed by String; the JSON file round-trip (load_json /
save_json on an intact file) is the identity on that dict, so each endpoint
becomes a pure state-passing function on the parsed store.  Wall-clock reads
(time.time(), a float of seconds) are modelled by an explicit rational-valued
`now` parameter threaded into the endpoints that call it.  External processes
(subprocess / os.system calls) are modelled by environment records that give,
for each invoked command, the completed process outcome (return code, stdout,
stderr); an uncaught Python exception is modelled with Except.
-/

namespace SupportSystem

/-! ## Definitions -/

/-! ### Python dict primitives (string-keyed association lists) -/

/-- Python `d[k]` / `k in d` lookup on a string-keyed dict. -/
def dictGet? {α : Type} : List (String × α) → String → Option α
  | [], _ => none
  | (k, v) :: rest, key => if k = key then some v else dictGet? rest key

/-- Python `d[k] = v`: replace the binding if the key is present, else append it. -/
def dictSet {α : Type} : List (String × α) → String → α → List (String × α)
  | [], key, v => [(key, v)]
  | (k, w) :: rest, key, v =>
      if k = key then (k, v) :: rest else (k, w) :: dictSet rest key v

/-! ### backend/main.py - per-agent command queues (commands_db.json) -/

/-- The parsed contents of commands_db.json: agent id -> pending command list.
The queued commands themselves are opaque JSON objects, so the store is
polymorphic in the command type. -/
abbrev CmdStore (α : Type) := List (String × List α)

/-- backend/main.py `send_command` (POST /api/agent/send/agent_id): create the
agent's queue if absent, append the command, save.  Returns the new store. -/
def send_command {α : Type} (agent_id : String) (command : α) (cmds : CmdStore α) :
    CmdStore α :=
  let cur := (dictGet? cmds agent_id).getD []
  dictSet cmds agent_id (cur ++ [command])

/-- backend/main.py `fetch_commands` (GET /api/agent/commands/agent_id): if the
agent id has no queue, answer [] without touching the store; otherwise return
the pending list and clear the queue ("clear after sending").  Returns the
response list and the new store. -/
def fetch_commands {α : Type} (agent_id : String) (cmds : CmdStore α) :
    List α × CmdStore α :=
  match dictGet? cmds agent_id with
  | none => ([], cmds)
  | some pending => (pending, dictSet cmds agent_id [])

/-! ### backend/main.py - agent registry (agents_db.json) -/

/-- The metrics snapshot sent by the agent (numeric percentages). -/
structure Metrics where
  cpu_usage : ℚ
  ram_usage : ℚ
  disk_usage : ℚ
deriving DecidableEq

/-- Free-form device-info blob (string key/value pairs). -/
abbrev DeviceInfo := List (String × String)

/-- The pydantic `AgentUpdate` request body of POST /api/agent/update. -/
structure AgentUpdate where
  agent_id : String
  hostname : String
  username : String
  os : String
  ip_address : String
  metrics : Metrics
  device_info : DeviceInfo
deriving DecidableEq

/-- A stored agent record, as written by `update_agent_info`: the request
fields plus the server-side `last_seen` timestamp. -/
structure AgentRecord where
  agent_id : String
  hostname : String
  username : String
  os : String
  ip_address : String
  metrics : Metrics
  device_info : DeviceInfo
  last_seen : ℚ
deriving DecidableEq

/-- The parsed contents of agents_db.json: agent id -> record. -/
abbrev AgentDB := List (String × AgentRecord)

/-- backend/main.py `update_agent_info` (POST /api/agent/update): overwrite the
whole record under `data.agent_id` and stamp `last_seen` with the current
wall-clock time (`now` models the `time.time()` read). -/
def update_agent_info (db : AgentDB) (data : AgentUpdate) (now : ℚ) : AgentDB :=
  dictSet db data.agent_id
    { agent_id := data.agent_id
      hostname := data.hostname
      username := data.username
      os := data.os
      ip_address := data.ip_address
      metrics := data.metrics
      device_info := data.device_info
      last_seen := now }

/-- backend/main.py `full_agent_info` (GET /api/agent/info/agent_id): the
stored record, or `none` for the 404 branch. -/
def full_agent_info (db : AgentDB) (agent_id : String) : Option AgentRecord :=
  dictGet? db agent_id

/-- One row of the GET /api/agent/list response. -/
structure DeviceView where
  agent_id : String
  hostname : String
  username : String
  ip_address : String
  os : String
  online : Bool
deriving DecidableEq

/-- backend/main.py `list_agents` (GET /api/agent/list): one row per stored
record, with `online = (time.time() - last_seen) < 30`. -/
def list_agents (db : AgentDB) (now : ℚ) : List DeviceView :=
  db.map (fun p =>
    { agent_id := p.1
      hostname := p.2.hostname
      username := p.2.username
      ip_address := p.2.ip_address
      os := p.2.os
      online := decide (now - p.2.last_seen < 30) })

/-! ### Concrete witness data for the registry claims -/

/-- A concrete stored record with last_seen = 0, for witnesses. -/
def witnessRecord : AgentRecord :=
  { agent_id := "A", hostname := "h", username := "u", os := "win"
    ip_address := "ip", metrics := ⟨0, 0, 0⟩, device_info := [], last_seen := 0 }

/-- A one-agent registry, for witnesses. -/
def witnessDB : AgentDB := [("A", witnessRecord)]

/-- The list_agents row for `witnessRecord` with a given online flag. -/
def witnessView (b : Bool) : DeviceView :=
  { agent_id := "A", hostname := "h", username := "u", ip_address := "ip"
    os := "win", online := b }

/-- A concrete update request, for witnesses. -/
def witnessUpdate (ip : String) : AgentUpdate :=
  { agent_id := "A", hostname := "h", username := "u", os := "win"
    ip_address := ip, metrics := ⟨0, 0, 0⟩, device_info := [] }

/-! ### Agent identity stores -/

/-- Python str.strip() on the character list: drop leading and trailing
whitespace. -/
def pyStripList (l : List Char) : List Char :=
  ((l.dropWhile Char.isWhitespace).reverse.dropWhile Char.isWhitespace).reverse

/-- Python str.strip(). -/
def pyStrip (s : String) : String := String.mk (pyStripList s.data)

/-- The state of the identity file's filesystem location: the file's contents
when it exists, and whether reads and writes at that location succeed. -/
structure IdFS where
  file : Option String
  readOk : Bool
  writeOk : Bool
deriving DecidableEq

/-- sys_agent/agent.py `get_agent_id`: if agent_id.txt does not exist,
synthesize "INL-hostname-unique" (unique = first dash-separated segment of a
uuid4), write it to the file, and return it - the write has no exception
handler, so an unwritable location raises; otherwise return the file contents
stripped - the read likewise has no handler.  `Except.error` models the
uncaught exception. -/
def get_agent_id (fs : IdFS) (hostname unique : String) :
    Except Unit (String × IdFS) :=
  match fs.file with
  | none =>
      let agent_id := "INL-" ++ hostname ++ "-" ++ unique
      if fs.writeOk then Except.ok (agent_id, { fs with file := some agent_id })
      else Except.error ()
  | some content =>
      if fs.readOk then Except.ok (pyStrip content, fs) else Except.error ()

/-- modules/agent_worker.py `load_or_create_agent_id`: if the file exists and
is readable, return its stripped contents; otherwise generate a fresh uuid4
(`new_id`), best-effort persist it (a failed write is swallowed by the bare
except), and return it.  Total: never raises. -/
def load_or_create_agent_id (fs : IdFS) (new_id : String) : String × IdFS :=
  match fs.file, fs.readOk with
  | some content, true => (pyStrip content, fs)
  | _, _ =>
      if fs.writeOk then (new_id, { fs with file := some new_id })
      else (new_id, fs)

/-! ### Command executors -/

/-- needle `isPrefixList` hay: the first char list starts the second. -/
def isPrefixList : List Char → List Char → Bool
  | [], _ => true
  | _ :: _, [] => false
  | a :: as, b :: bs => a == b && isPrefixList as bs

/-- Does the needle occur in the haystack at any offset. -/
def listContainsSub (needle : List Char) : List Char → Bool
  | [] => isPrefixList needle []
  | b :: bs => isPrefixList needle (b :: bs) || listContainsSub needle bs

/-- Python `needle in hay` on strings (substring containment). -/
def strContains (hay needle : String) : Bool := listContainsSub needle.data hay.data

/-- Python f-string rendering of an Optional[str] (`None` prints as "None"). -/
def pyShowOptStr : Option String → String
  | some s => s
  | none => "None"

/-- Python `a or b` on strings: `b` if `a` is empty (falsy), else `a`. -/
def pyOr (a b : String) : String := if a = "" then b else a

/-- A completed external process: return code and captured texts. -/
structure RunResult where
  returncode : Int
  stdout : String
  stderr : String
deriving DecidableEq

/-- The command dict consumed by sys_agent/agent.py run_command: `.get("type")`
and `.get("command", "")` are the only keys it reads. -/
structure AgentCommand where
  ctype : Option String
  command : Option String
deriving DecidableEq

/-- The external-process behaviour seen by sys_agent/agent.py run_command.
`getstatusoutput` models subprocess.getstatusoutput: exit status of the shell
command and its combined stdout+stderr text (subprocess.getoutput returns the
text and discards the status).  `quick_assist` is the (success, message)
outcome of launch_quick_assist. -/
structure ShellEnv where
  getstatusoutput : String → Int × String
  quick_assist : Bool × String

/-- sys_agent/agent.py `run_command`: dispatch on the command type; the
fallthrough returns (False, "Unknown command type").  The shutdown / restart
branches fire-and-forget an OS shutdown call and report a constant message. -/
def run_command (env : ShellEnv) (cmd : AgentCommand) : Bool × String :=
  if cmd.ctype = some "shutdown" then (true, "Shutdown triggered")
  else if cmd.ctype = some "restart" then (true, "Restart triggered")
  else if cmd.ctype = some "quick_assist" then env.quick_assist
  else if cmd.ctype = some "cmd" then
    (true, (env.getstatusoutput (cmd.command.getD "")).2)
  else (false, "Unknown command type")

/-- The payload dict of a worker command: `.get("service")` / `.get("cmd")`. -/
structure WorkerPayload where
  service : Option String
  cmd : Option String
deriving DecidableEq

/-- The command dict consumed by AgentWorker.execute_command. -/
structure WorkerCommand where
  id : Option String
  ctype : Option String
  payload : WorkerPayload
deriving DecidableEq

/-- The result dict that AgentWorker.execute_command posts back. -/
structure WorkerResult where
  cmd_id : Option String
  status : String
  output : String
deriving DecidableEq

/-- The external-process behaviour seen by AgentWorker.execute_command:
`sc stop` / `sc start` per service name, the shell run (with its timeout
argument; the completed outcome models a run that finishes in time), and the
os.system launcher whose exit code is ignored. -/
structure WorkerEnv where
  sc_stop : String → RunResult
  sc_start : String → RunResult
  run_shell : String → Nat → RunResult
  system : String → Int

/-- modules/agent_worker.py `AgentWorker.execute_command`: dispatch on the
command type and build the result dict that is posted back.  A missing
mandatory payload field makes the subprocess call raise; the outer handler
turns that into an "error" result with the exception text (modelled as the
constant "TypeError").  Unknown types produce the "error" /
"Unknown command type: ..." result. -/
def execute_command (env : WorkerEnv) (cmd : WorkerCommand) : WorkerResult :=
  if cmd.ctype = some "restart_service" then
    match cmd.payload.service with
    | some service_name =>
        { cmd_id := cmd.id, status := "ok"
          output := "stop: " ++ (env.sc_stop service_name).stdout ++ "\nstart: "
            ++ (env.sc_start service_name).stdout }
    | none => { cmd_id := none, status := "error", output := "TypeError" }
  else if cmd.ctype = some "run_shell" then
    match cmd.payload.cmd with
    | some shell =>
        { cmd_id := cmd.id
          status := if (env.run_shell shell 60).returncode = 0 then "ok" else "error"
          output := (env.run_shell shell 60).stdout ++ (env.run_shell shell 60).stderr }
    | none => { cmd_id := none, status := "error", output := "TypeError" }
  else if cmd.ctype = some "open_quick_assist" then
    { cmd_id := cmd.id, status := "ok", output := "Quick Assist launched" }
  else
    { cmd_id := cmd.id, status := "error"
      output := "Unknown command type: " ++ pyShowOptStr cmd.ctype }

/-- The external-process behaviour seen by auto_troubleshoot.restart_service:
`sc stop`, `sc start` and `sc query` outcomes per service name. -/
structure SvcEnv where
  sc_stop : String → RunResult
  sc_start : String → RunResult
  sc_query : String → RunResult

/-- modules/auto_troubleshoot.py `restart_service`: reject an empty (falsy)
service name; stop the service and bail out on a nonzero exit; wait; start
it and bail out on a nonzero exit; wait; query the service and report success
exactly when "RUNNING" occurs in the query's stdout. -/
def restart_service (env : SvcEnv) (service_name : String) : String :=
  if service_name = "" then "❌ Error: Service name is missing or invalid!"
  else
    let stop_result := env.sc_stop service_name
    if stop_result.returncode ≠ 0 then
      "⚠️ Error stopping " ++ service_name ++ ": "
        ++ pyOr (pyStrip stop_result.stderr) (pyStrip stop_result.stdout)
    else
      let start_result := env.sc_start service_name
      if start_result.returncode ≠ 0 then
        "⚠️ Error starting " ++ service_name ++ ": "
          ++ pyOr (pyStrip start_result.stderr) (pyStrip start_result.stdout)
      else
        let check_result := env.sc_query service_name
        if strContains check_result.stdout "RUNNING" then
          "✅ Successfully Restarted " ++ service_name
        else
          "❌ Service " ++ service_name ++ " failed to restart."

/-! ### Concrete environments and records for the executor witnesses -/

/-- Shell environment for witnesses: every shell command exits 1 with combined
output "boom"; quick assist succeeds. -/
def witnessShellEnv : ShellEnv :=
  { getstatusoutput := fun _ => (1, "boom"), quick_assist := (true, "ok") }

/-- Worker environment for witnesses: sc calls succeed silently; the shell
command "exit 0" exits 0 and every other shell command exits 1. -/
def witnessWorkerEnv : WorkerEnv :=
  { sc_stop := fun _ => ⟨0, "", ""⟩
    sc_start := fun _ => ⟨0, "", ""⟩
    run_shell := fun s _ => if s = "exit 0" then ⟨0, "", ""⟩ else ⟨1, "", ""⟩
    system := fun _ => 0 }

/-- Service environment for the C4 counterexample: `sc stop` fails with exit 1
(access denied) while `sc query` reports a RUNNING state. -/
def witnessSvcEnv : SvcEnv :=
  { sc_stop := fun _ => ⟨1, "", "Access is denied."⟩
    sc_start := fun _ => ⟨0, "", ""⟩
    sc_query := fun _ => ⟨0, "        STATE              : 4  RUNNING", ""⟩ }

/-- The record that update_agent_info writes for request `d` at time `t`. -/
def writtenRecord (d : AgentUpdate) (t : ℚ) : AgentRecord :=
  { agent_id := d.agent_id
    hostname := d.hostname
    username := d.username
    os := d.os
    ip_address := d.ip_address
    metrics := d.metrics
    device_info := d.device_info
    last_seen := t }

/-- The record written by update_agent_info for `witnessUpdate ip` at time t. -/
def witnessWritten (ip : String) (t : ℚ) : AgentRecord :=
  { agent_id := "A", hostname := "h", username := "u", os := "win"
    ip_address := ip, metrics := ⟨0, 0, 0⟩, device_info := [], last_seen := t }

/-! ## Theorems -/

/-! ### String helper lemmas -/

theorem string_ne_of_head_ne (s t : String) (c d : Char) (hs : s.data.head? = some c)
    (ht : t.data.head? = some d) (hcd : c ≠ d) : s ≠ t := by
  intro he
  rw [he, ht] at hs
  injection hs with hs
  exact hcd hs.symm

/-! ### str.strip lemmas -/

theorem dropWhile_whitespace_eq_self (l : List Char)
    (h : ∀ c, l.head? = some c → c.isWhitespace = false) :
    l.dropWhile Char.isWhitespace = l := by
  cases l with
  | nil => rfl
  | cons a t =>
      have ha : a.isWhitespace = false := h a rfl
      exact List.dropWhile_cons_of_neg (by simp [ha])

theorem pyStripList_eq_self (l : List Char)
    (h1 : ∀ c, l.head? = some c → c.isWhitespace = false)
    (h2 : ∀ c, l.getLast? = some c → c.isWhitespace = false) :
    pyStripList l = l := by
  unfold pyStripList
  rw [dropWhile_whitespace_eq_self l h1]
  rw [dropWhile_whitespace_eq_self l.reverse
    (fun c hc => h2 c (by rwa [List.head?_reverse] at hc))]
  exact List.reverse_reverse l

theorem pyStrip_eq_self_of_no_whitespace (s : String)
    (h : ∀ c ∈ s.data, c.isWhitespace = false) : pyStrip s = s := by
  unfold pyStrip
  rw [pyStripList_eq_self s.data
    (fun c hc => h c (List.mem_of_mem_head? hc))
    (fun c hc => h c (List.mem_of_getLast?_eq_some hc))]

theorem pyStrip_inl_id (hostname unique : String)
    (hu0 : unique.data ≠ [])
    (hu : ∀ c ∈ unique.data, c.isWhitespace = false) :
    pyStrip ("INL-" ++ hostname ++ "-" ++ unique)
      = "INL-" ++ hostname ++ "-" ++ unique := by
  have h1 : ∀ c, ("INL-" ++ hostname ++ "-" ++ unique).data.head? = some c →
      c.isWhitespace = false := by
    intro c hc
    have hhd : ("INL-" ++ hostname ++ "-" ++ unique).data.head? = some 'I' := rfl
    rw [hhd] at hc
    injection hc with hc
    rw [← hc]
    decide
  have h2 : ∀ c, ("INL-" ++ hostname ++ "-" ++ unique).data.getLast? = some c →
      c.isWhitespace = false := by
    intro c hc
    have hdat : ("INL-" ++ hostname ++ "-" ++ unique).data
        = ("INL-" ++ hostname ++ "-").data ++ unique.data := rfl
    rw [hdat, List.getLast?_append_of_ne_nil _ hu0] at hc
    exact hu c (List.mem_of_getLast?_eq_some hc)
  unfold pyStrip
  rw [pyStripList_eq_self _ h1 h2]

/-! ### Claims C6, C7: agent identity -/

/-- C6 counterexample: with the identity file absent and its location
unwritable, sys_agent/agent.py get_agent_id raises out of the open-for-write
(there is no exception handler around it) instead of returning an ephemeral
agent id. -/
theorem get_agent_id_unwritable_raises :
    get_agent_id ⟨none, true, false⟩ "HOST" "abc123" = Except.error () := rfl

/-- C6 amended: modules/agent_worker.py load_or_create_agent_id does tolerate
a missing, unwritable identity location: it returns the fresh ephemeral id for
this process run and leaves the filesystem untouched (the failed write is
swallowed); sys_agent/agent.py get_agent_id, by contrast, raises there. -/
theorem load_or_create_agent_id_unwritable_ephemeral (fs : IdFS) (new_id : String)
    (hf : fs.file = none) (hw : fs.writeOk = false) :
    load_or_create_agent_id fs new_id = (new_id, fs) := by
  unfold load_or_create_agent_id
  rw [hf, hw]
  simp

/-- Witness for the amended C6 at a concrete unwritable location. -/
theorem load_or_create_agent_id_unwritable_ephemeral_witness :
    (⟨none, true, false⟩ : IdFS).file = none ∧
    (⟨none, true, false⟩ : IdFS).writeOk = false ∧
    load_or_create_agent_id ⟨none, true, false⟩ "uuid-1"
      = ("uuid-1", ⟨none, true, false⟩) :=
  ⟨rfl, rfl,
    load_or_create_agent_id_unwritable_ephemeral ⟨none, true, false⟩ "uuid-1" rfl rfl⟩

/-- C7: reading the identity twice - twice in one process, or across a restart
with the persisted file intact - returns the identical agent id, for both
implementations: the id is never regenerated while the file exists.  The
second call's fresh randomness (unique2 / new_id2) is arbitrary; the location
must be readable, and (for the worker variant, which silently regenerates on a
failed write) writable, and the generated suffix is whitespace-free, as uuid4
output is. -/
theorem agent_id_stable :
    (∀ (fs : IdFS) (hostname unique unique2 id : String) (fs2 : IdFS),
      fs.readOk = true →
      unique.data ≠ [] →
      (∀ c ∈ unique.data, c.isWhitespace = false) →
      get_agent_id fs hostname unique = Except.ok (id, fs2) →
      get_agent_id fs2 hostname unique2 = Except.ok (id, fs2)) ∧
    (∀ (fs : IdFS) (new_id new_id2 id : String) (fs2 : IdFS),
      fs.readOk = true →
      fs.writeOk = true →
      new_id.data ≠ [] →
      (∀ c ∈ new_id.data, c.isWhitespace = false) →
      load_or_create_agent_id fs new_id = (id, fs2) →
      load_or_create_agent_id fs2 new_id2 = (id, fs2)) := by
  constructor
  · rintro ⟨file, rOk, wOk⟩ hostname unique unique2 id fs2 hr hu0 hu hcall
    dsimp only at hr
    subst hr
    cases file with
    | none =>
        cases wOk with
        | false => simp [get_agent_id] at hcall
        | true =>
            simp only [get_agent_id, if_true, Except.ok.injEq, Prod.mk.injEq] at hcall
            obtain ⟨hid, hfs⟩ := hcall
            subst hid
            subst hfs
            simp [get_agent_id, pyStrip_inl_id hostname unique hu0 hu]
    | some content =>
        simp only [get_agent_id, if_true, Except.ok.injEq, Prod.mk.injEq] at hcall
        obtain ⟨hid, hfs⟩ := hcall
        subst hid
        subst hfs
        simp [get_agent_id]
  · rintro ⟨file, rOk, wOk⟩ new_id new_id2 id fs2 hr hw hu0 hu hcall
    dsimp only at hr hw
    subst hr
    subst hw
    cases file with
    | none =>
        simp only [load_or_create_agent_id, if_true, Prod.mk.injEq] at hcall
        obtain ⟨hid, hfs⟩ := hcall
        subst hid
        subst hfs
        simp [load_or_create_agent_id, pyStrip_eq_self_of_no_whitespace new_id hu]
    | some content =>
        simp only [load_or_create_agent_id, Prod.mk.injEq] at hcall
        obtain ⟨hid, hfs⟩ := hcall
        subst hid
        subst hfs
        simp [load_or_create_agent_id]

/-- Witness for C7: a machine whose first start created "INL-HOST-abc123"
reads the same id again (with fresh randomness "zzz"), and a worker that
persisted "u1" reads "u1" again (with fresh randomness "u2"). -/
theorem agent_id_stable_witness :
    get_agent_id ⟨some "INL-HOST-abc123", true, true⟩ "HOST" "zzz"
      = Except.ok ("INL-HOST-abc123", ⟨some "INL-HOST-abc123", true, true⟩) ∧
    load_or_create_agent_id ⟨some "u1", true, true⟩ "u2"
      = ("u1", ⟨some "u1", true, true⟩) :=
  ⟨agent_id_stable.1 ⟨none, true, true⟩ "HOST" "abc123" "zzz" "INL-HOST-abc123"
      ⟨some "INL-HOST-abc123", true, true⟩ rfl (by decide) (by decide) rfl,
   agent_id_stable.2 ⟨none, true, true⟩ "u1" "u2" "u1" ⟨some "u1", true, true⟩
      rfl rfl (by decide) (by decide) rfl⟩

/-! ### dict lemmas -/

theorem dictGet?_dictSet_self {α : Type} (d : List (String × α)) (k : String) (v : α) :
    dictGet? (dictSet d k v) k = some v := by
  induction d with
  | nil => simp [dictGet?, dictSet]
  | cons p rest ih =>
      obtain ⟨k', w⟩ := p
      by_cases h : k' = k
      · simp [dictGet?, dictSet, h]
      · simp [dictGet?, dictSet, h, ih]

theorem dictGet?_send_command {α : Type} (cmds : CmdStore α) (A : String) (c : α) :
    dictGet? (send_command A c cmds) A = some ((dictGet? cmds A).getD [] ++ [c]) := by
  unfold send_command
  exact dictGet?_dictSet_self cmds A _

/-! ### Claims C1, C10: command queue -/

/-- C1: for every agent id A, starting from a store in which A's queue is empty
or absent, enqueueing C1, C2, C3 in that order and then draining returns
exactly [C1, C2, C3] in order, and a second immediate drain returns []. -/
theorem fifo_enqueue_drain {α : Type} (cmds : CmdStore α) (A : String) (c1 c2 c3 : α)
    (h : (dictGet? cmds A).getD [] = []) :
    (fetch_commands A (send_command A c3 (send_command A c2 (send_command A c1 cmds)))).1
      = [c1, c2, c3] ∧
    (fetch_commands A
      (fetch_commands A
        (send_command A c3 (send_command A c2 (send_command A c1 cmds)))).2).1 = [] := by
  have h1 : dictGet? (send_command A c1 cmds) A = some [c1] := by
    rw [dictGet?_send_command, h]
    rfl
  have h2 : dictGet? (send_command A c2 (send_command A c1 cmds)) A = some [c1, c2] := by
    rw [dictGet?_send_command, h1]
    rfl
  have h3 : dictGet? (send_command A c3 (send_command A c2 (send_command A c1 cmds))) A
      = some [c1, c2, c3] := by
    rw [dictGet?_send_command, h2]
    rfl
  constructor
  · unfold fetch_commands
    rw [h3]
  · unfold fetch_commands
    rw [h3]
    simp only
    rw [dictGet?_dictSet_self]

/-- Witness for C1: three commands enqueued for "A" in the empty store drain in
FIFO order, and the second drain is empty. -/
theorem fifo_enqueue_drain_witness :
    (dictGet? ([] : CmdStore Nat) "A").getD [] = [] ∧
    ((fetch_commands "A"
        (send_command "A" 3 (send_command "A" 2 (send_command "A" 1 ([] : CmdStore Nat))))).1
      = [1, 2, 3] ∧
    (fetch_commands "A"
      (fetch_commands "A"
        (send_command "A" 3 (send_command "A" 2 (send_command "A" 1 ([] : CmdStore Nat))))).2).1
      = []) :=
  ⟨rfl, fifo_enqueue_drain ([] : CmdStore Nat) "A" 1 2 3 rfl⟩

/-- C10: draining an agent id that has never had a command enqueued returns the
empty list and leaves the whole command store unchanged (no queue entry is
created and no other agent's queue is touched). -/
theorem drain_unknown_agent {α : Type} (cmds : CmdStore α) (A : String)
    (h : dictGet? cmds A = none) :
    fetch_commands A cmds = ([], cmds) := by
  unfold fetch_commands
  rw [h]

/-- Witness for C10: draining "ghost" from a store that only knows "A" returns
[] and the untouched store. -/
theorem drain_unknown_agent_witness :
    dictGet? [("A", [1, 2])] "ghost" = none ∧
    fetch_commands "ghost" ([("A", [1, 2])] : CmdStore Nat) = ([], [("A", [1, 2])]) :=
  ⟨rfl, drain_unknown_agent [("A", [1, 2])] "ghost" rfl⟩

/-! ### Claims C2, C8: presence and registry overwrite -/

/-- C2: every row reported by list_agents has online = true exactly when
(now - last_seen) is strictly below 30 seconds; in particular an agent last
seen 29 s ago is online and one last seen 31 s ago is offline. -/
theorem list_agents_online_iff (db : AgentDB) (now : ℚ) (d : DeviceView)
    (hd : d ∈ list_agents db now) :
    ∃ p ∈ db, d.agent_id = p.1 ∧ (d.online = true ↔ now - p.2.last_seen < 30) := by
  unfold list_agents at hd
  obtain ⟨p, hp, hmap⟩ := List.mem_map.mp hd
  refine ⟨p, hp, ?_, ?_⟩
  · rw [← hmap]
  · rw [← hmap]
    simp

/-- Witness for C2: in a one-agent registry with last_seen = 0, the listed row
is online at now = 29 and offline at now = 31. -/
theorem list_agents_online_iff_witness :
    (∃ p ∈ witnessDB, (witnessView true).agent_id = p.1 ∧
      ((witnessView true).online = true ↔ (29 : ℚ) - p.2.last_seen < 30)) ∧
    (∃ p ∈ witnessDB, (witnessView false).agent_id = p.1 ∧
      ((witnessView false).online = true ↔ (31 : ℚ) - p.2.last_seen < 30)) :=
  ⟨list_agents_online_iff witnessDB 29 (witnessView true)
      (by norm_num [list_agents, witnessDB, witnessRecord, witnessView]),
   list_agents_online_iff witnessDB 31 (witnessView false)
      (by norm_num [list_agents, witnessDB, witnessRecord, witnessView])⟩

/-! ### Claims C3, C9: sys_agent / worker executors on generic commands -/

/-- C3: a command whose type is outside the recognized vocabulary yields a
failed result with a non-empty descriptive output in both executors - (False,
"Unknown command type") from run_command and an "error" status with
"Unknown command type: ..." from execute_command - and, the models being total
functions into result values, no exception escapes. -/
theorem unknown_command_type_fails :
    (∀ (env : ShellEnv) (cmd : AgentCommand),
      cmd.ctype ≠ some "shutdown" → cmd.ctype ≠ some "restart" →
      cmd.ctype ≠ some "quick_assist" → cmd.ctype ≠ some "cmd" →
      run_command env cmd = (false, "Unknown command type") ∧
      ("Unknown command type" : String) ≠ "") ∧
    (∀ (env : WorkerEnv) (cmd : WorkerCommand),
      cmd.ctype ≠ some "restart_service" → cmd.ctype ≠ some "run_shell" →
      cmd.ctype ≠ some "open_quick_assist" →
      (execute_command env cmd).status = "error" ∧
      (execute_command env cmd).output
        = "Unknown command type: " ++ pyShowOptStr cmd.ctype ∧
      (execute_command env cmd).output ≠ "") := by
  constructor
  · intro env cmd h1 h2 h3 h4
    refine ⟨?_, by decide⟩
    unfold run_command
    rw [if_neg h1, if_neg h2, if_neg h3, if_neg h4]
  · intro env cmd h1 h2 h3
    unfold execute_command
    rw [if_neg h1, if_neg h2, if_neg h3]
    refine ⟨rfl, rfl, ?_⟩
    intro he
    have hd := congrArg String.data he
    rw [String.data_append] at hd
    simp at hd

/-- Witness for C3: type "bogus" fails with the descriptive message in both
executors. -/
theorem unknown_command_type_fails_witness :
    (run_command witnessShellEnv ⟨some "bogus", none⟩ = (false, "Unknown command type") ∧
      ("Unknown command type" : String) ≠ "") ∧
    ((execute_command witnessWorkerEnv ⟨none, some "bogus", ⟨none, none⟩⟩).status = "error" ∧
      (execute_command witnessWorkerEnv ⟨none, some "bogus", ⟨none, none⟩⟩).output
        = "Unknown command type: " ++ pyShowOptStr (some "bogus") ∧
      (execute_command witnessWorkerEnv ⟨none, some "bogus", ⟨none, none⟩⟩).output ≠ "") :=
  ⟨unknown_command_type_fails.1 witnessShellEnv ⟨some "bogus", none⟩
      (by decide) (by decide) (by decide) (by decide),
   unknown_command_type_fails.2 witnessWorkerEnv ⟨none, some "bogus", ⟨none, none⟩⟩
      (by decide) (by decide) (by decide)⟩

/-- C9: a generic "cmd" command is always reported successful: run_command
returns success=True together with the text captured by subprocess.getoutput,
whatever the exit status of the underlying shell command was. -/
theorem cmd_type_ignores_exit_code (env : ShellEnv) (cmd : AgentCommand)
    (code : Int) (out : String)
    (ht : cmd.ctype = some "cmd")
    (hrun : env.getstatusoutput (cmd.command.getD "") = (code, out)) :
    run_command env cmd = (true, out) := by
  unfold run_command
  rw [ht, if_neg (by decide), if_neg (by decide), if_neg (by decide), if_pos rfl, hrun]

/-- Witness for C9: a shell command that exits 1 is still reported as a
success, with its captured output. -/
theorem cmd_type_ignores_exit_code_witness :
    run_command witnessShellEnv ⟨some "cmd", some "false"⟩ = (true, "boom") :=
  cmd_type_ignores_exit_code witnessShellEnv ⟨some "cmd", some "false"⟩ 1 "boom" rfl rfl

/-! ### Claim C5: run_shell success iff exit code zero -/

/-- C5: a run_shell command with its shell string present is executed with the
60-second timeout bound; the worker reports status "ok" exactly when the exit
code is zero ("error" otherwise) and returns the combined stdout+stderr as the
output. -/
theorem run_shell_success_iff (env : WorkerEnv) (cmd : WorkerCommand) (shell : String)
    (ht : cmd.ctype = some "run_shell") (hp : cmd.payload.cmd = some shell) :
    ((execute_command env cmd).status = "ok" ↔ (env.run_shell shell 60).returncode = 0) ∧
    ((env.run_shell shell 60).returncode ≠ 0 → (execute_command env cmd).status = "error") ∧
    (execute_command env cmd).output
      = (env.run_shell shell 60).stdout ++ (env.run_shell shell 60).stderr := by
  have hres : execute_command env cmd =
      { cmd_id := cmd.id
        status := if (env.run_shell shell 60).returncode = 0 then "ok" else "error"
        output := (env.run_shell shell 60).stdout ++ (env.run_shell shell 60).stderr } := by
    unfold execute_command
    rw [ht, if_neg (by decide), if_pos rfl, hp]
  rw [hres]
  by_cases hrc : (env.run_shell shell 60).returncode = 0
  · rw [if_pos hrc]
    exact ⟨iff_of_true rfl hrc, fun h => absurd hrc h, rfl⟩
  · rw [if_neg hrc]
    refine ⟨?_, fun _ => rfl, rfl⟩
    show (("error" : String) = "ok") ↔ _
    exact iff_of_false (by decide) hrc

/-- Witness for C5: run_shell "exit 0" is reported ok, run_shell "exit 1" is
reported error. -/
theorem run_shell_success_iff_witness :
    ((execute_command witnessWorkerEnv ⟨none, some "run_shell", ⟨none, some "exit 0"⟩⟩).status
        = "ok" ↔ (witnessWorkerEnv.run_shell "exit 0" 60).returncode = 0) ∧
    ((witnessWorkerEnv.run_shell "exit 1" 60).returncode ≠ 0 →
      (execute_command witnessWorkerEnv ⟨none, some "run_shell", ⟨none, some "exit 1"⟩⟩).status
        = "error") :=
  ⟨(run_shell_success_iff witnessWorkerEnv ⟨none, some "run_shell", ⟨none, some "exit 0"⟩⟩
      "exit 0" rfl rfl).1,
   (run_shell_success_iff witnessWorkerEnv ⟨none, some "run_shell", ⟨none, some "exit 1"⟩⟩
      "exit 1" rfl rfl).2.1⟩

/-! ### Claim C4: restart_service success classification -/

/-- C4 counterexample: when `sc stop` exits nonzero, restart_service reports a
stopping error even though the status-query output contains "RUNNING" - so
"success iff a running indicator is present in the status-query output" fails
as stated. -/
theorem restart_service_counterexample :
    strContains (witnessSvcEnv.sc_query "Spooler").stdout "RUNNING" = true ∧
    restart_service witnessSvcEnv "Spooler" ≠ "✅ Successfully Restarted Spooler" := by
  constructor
  · decide
  · decide

/-- C4 amended: restart_service classifies the restart as succeeded iff the
service name is non-empty, the stop command and the start command both exit
zero, and "RUNNING" occurs in the status-query output; an empty name or a
nonzero stop/start exit reports failure without consulting the status query. -/
theorem restart_service_success_iff (env : SvcEnv) (service_name : String) :
    restart_service env service_name = "✅ Successfully Restarted " ++ service_name ↔
      (service_name ≠ "" ∧ (env.sc_stop service_name).returncode = 0 ∧
       (env.sc_start service_name).returncode = 0 ∧
       strContains (env.sc_query service_name).stdout "RUNNING" = true) := by
  simp only [restart_service]
  split_ifs with h0 hstop hstart hrun
  · exact iff_of_false
      (string_ne_of_head_ne _ _ '❌' '✅' rfl rfl (by decide))
      (by rintro ⟨h, -⟩; exact h h0)
  · exact iff_of_false
      (string_ne_of_head_ne _ _ '⚠' '✅' rfl rfl (by decide))
      (by rintro ⟨-, h, -⟩; exact hstop h)
  · exact iff_of_false
      (string_ne_of_head_ne _ _ '⚠' '✅' rfl rfl (by decide))
      (by rintro ⟨-, -, h, -⟩; exact hstart h)
  · exact iff_of_true rfl ⟨h0, not_not.mp hstop, not_not.mp hstart, hrun⟩
  · exact iff_of_false
      (string_ne_of_head_ne _ _ '❌' '✅' rfl rfl (by decide))
      (by rintro ⟨-, -, -, h⟩; exact hrun h)

/-! ### Claim C8: update overwrite and last_seen monotonicity -/

/-- C8: two successive updates for the same agent id with different ip
addresses leave get_agent showing exactly the newest record (full overwrite of
the mutable fields, in particular the ip address), with last_seen strictly
increasing across the two calls (the wall clock advanced between them); and
under every single update whose wall-clock read is at least the stored stamp,
last_seen is monotonically non-decreasing. -/
theorem update_agent_overwrite_monotone :
    (∀ (db : AgentDB) (d1 d2 : AgentUpdate) (t1 t2 : ℚ),
      d1.agent_id = d2.agent_id → t1 < t2 →
      ∃ r1 r2,
        full_agent_info (update_agent_info db d1 t1) d1.agent_id = some r1 ∧
        full_agent_info (update_agent_info (update_agent_info db d1 t1) d2 t2) d2.agent_id
          = some r2 ∧
        r2.ip_address = d2.ip_address ∧ r1.last_seen < r2.last_seen) ∧
    (∀ (db : AgentDB) (d : AgentUpdate) (t : ℚ) (r0 r1 : AgentRecord),
      full_agent_info db d.agent_id = some r0 → r0.last_seen ≤ t →
      full_agent_info (update_agent_info db d t) d.agent_id = some r1 →
      r0.last_seen ≤ r1.last_seen) := by
  constructor
  · intro db d1 d2 t1 t2 hid ht
    refine ⟨writtenRecord d1 t1, writtenRecord d2 t2, ?_, ?_, rfl, ht⟩
    · unfold full_agent_info update_agent_info
      exact dictGet?_dictSet_self _ _ _
    · unfold full_agent_info update_agent_info
      exact dictGet?_dictSet_self _ _ _
  · intro db d t r0 r1 h0 hle h1
    unfold full_agent_info update_agent_info at h1
    rw [dictGet?_dictSet_self] at h1
    injection h1 with h1
    rw [← h1]
    exact hle

/-- Witness for C8: updating "A" at times 0 and 1 with ips 1.1.1.1 then
2.2.2.2 leaves only 2.2.2.2 visible and last_seen goes 0 to 1; and one update
of the stored witness registry at time 5 does not decrease last_seen. -/
theorem update_agent_overwrite_monotone_witness :
    (∃ r1 r2,
      full_agent_info (update_agent_info ([] : AgentDB) (witnessUpdate "1.1.1.1") 0) "A"
        = some r1 ∧
      full_agent_info
        (update_agent_info (update_agent_info ([] : AgentDB) (witnessUpdate "1.1.1.1") 0)
          (witnessUpdate "2.2.2.2") 1) "A" = some r2 ∧
      r2.ip_address = (witnessUpdate "2.2.2.2").ip_address ∧ r1.last_seen < r2.last_seen) ∧
    witnessRecord.last_seen ≤ (witnessWritten "9.9.9.9" 5).last_seen :=
  ⟨update_agent_overwrite_monotone.1 ([] : AgentDB)
      (witnessUpdate "1.1.1.1") (witnessUpdate "2.2.2.2") 0 1 rfl (by norm_num),
   update_agent_overwrite_monotone.2 witnessDB (witnessUpdate "9.9.9.9") 5
      witnessRecord (witnessWritten "9.9.9.9" 5) rfl
      (by norm_num [witnessRecord, witnessWritten]) rfl⟩

end SupportSystem
